import Mathlib

/-!
Shallow embedding of `src/recomand.py`, a Streamlit hospital-records admin
panel backed by SQLite (tables `patients`, `doctors`, `staff`), together with
theorems settling the specification claims.

Modelling conventions:
* A SQLite table is a list of rows plus the next AUTOINCREMENT id.
* Machine-level SQL behaviour that the handlers rely on is modelled
  explicitly: the `UNIQUE` constraint on `patients.phone` makes an INSERT
  fail when an equal phone string is already present (every row created
  through the UI stores a string phone, so the NULL exemption never
  applies), and SQLite's `LIKE` is modelled character by character,
  including its `%` and `_` wildcards and its ASCII-only case folding.
* The `created_at TEXT DEFAULT CURRENT_TIMESTAMP` column is a wall-clock
  timestamp never read by any handler; it is left out of the row model.
* Python string truthiness (`if fn and ln and ph:`, `if search:`) is
  modelled as a comparison with the empty string.
* Streamlit widget values reaching a handler (button clicked, checkbox
  checked, text-input contents) are the handler's explicit arguments.
-/

namespace Recomand

/-- A row of the `patients` table (src/recomand.py lines 30-39):
`id INTEGER PRIMARY KEY AUTOINCREMENT, first_name TEXT NOT NULL,
last_name TEXT NOT NULL, phone TEXT UNIQUE, gender TEXT, dob TEXT,
blood_type TEXT` (plus a `created_at` timestamp not modelled).
The UI never writes `dob`, so it is `Option String` (NULL = `none`);
the other text columns are always written as strings by the handlers. -/
structure Patient where
  id : Nat
  first_name : String
  last_name : String
  phone : String
  gender : String
  dob : Option String
  blood_type : String
deriving Repr, DecidableEq

/-- The `patients` table: its rows in insertion order together with the
next AUTOINCREMENT id. -/
structure PatientsTable where
  rows : List Patient
  nextId : Nat
deriving Repr, DecidableEq

/-- Store-level error taxonomy of the spec; the only store error the
handlers can trigger is the uniqueness violation on `patients.phone`
(spec name: ConflictError; SQLite raises `UNIQUE constraint failed`). -/
inductive StoreError where
  | conflict
deriving Repr, DecidableEq

/-- `True` when some row already holds this exact phone string: the
condition under which SQLite rejects an INSERT by the
`phone TEXT UNIQUE` constraint (src/recomand.py line 34). -/
def phoneConflict (t : PatientsTable) (ph : String) : Bool :=
  t.rows.any (fun r => r.phone == ph)

/-- `INSERT INTO patients (first_name, last_name, phone, gender, blood_type)
VALUES (?,?,?,?,?)` (src/recomand.py lines 190-193): fails on a duplicate
phone, otherwise appends a fresh row (`dob` stays NULL, id is the next
AUTOINCREMENT value). -/
def insertPatient (t : PatientsTable) (fn ln ph g blood : String) :
    Except StoreError PatientsTable :=
  if phoneConflict t ph then
    .error .conflict
  else
    .ok { rows := t.rows ++ [⟨t.nextId, fn, ln, ph, g, none, blood⟩],
          nextId := t.nextId + 1 }

/-- `SELECT * FROM patients WHERE id = ?` (src/recomand.py line 209),
reduced to the single row it returns, `none` when the id is absent. -/
def getPatient (t : PatientsTable) (pid : Nat) : Option Patient :=
  t.rows.find? (fun r => r.id == pid)

/-- `DELETE FROM patients WHERE id = ?` (src/recomand.py line 236). -/
def deletePatient (t : PatientsTable) (pid : Nat) : PatientsTable :=
  { t with rows := t.rows.filter (fun r => r.id != pid) }

/-- Number of patient rows (`SELECT COUNT(*) FROM patients`). -/
def countPatients (t : PatientsTable) : Nat :=
  t.rows.length

/-- Number of patient rows holding the given phone string. -/
def countPhone (t : PatientsTable) (ph : String) : Nat :=
  (t.rows.filter (fun r => r.phone == ph)).length

/-- The Delete Patient handler (src/recomand.py lines 234-238): the DELETE
statement sits under `if st.button("Delete Patient")` and, nested inside
it, `if st.checkbox("Confirm permanent deletion")`; as a function of the
two widget values, the row is deleted exactly when both are true. -/
def deleteHandler (t : PatientsTable) (pid : Nat)
    (buttonClicked confirmChecked : Bool) : PatientsTable :=
  if buttonClicked then
    if confirmChecked then deletePatient t pid else t
  else t

/-- After filtering out every row whose id is `pid`, a search for id `pid`
finds nothing. -/
theorem find?_id_filter_ne (l : List Patient) (pid : Nat) :
    (l.filter (fun r => r.id != pid)).find? (fun r => r.id == pid) = none := by
  rw [List.find?_eq_none]
  intro r hr
  have h := (List.mem_filter.mp hr).2
  simpa using h

/-- C1: A patient row is deleted only when the Delete button is pressed
with the confirmation checkbox set: without the confirmation (whether or
not the button is pressed) the store is unchanged, so the row stays
present; with button and confirmation the row is removed and a subsequent
get by its id returns no row; a single click (button without confirmation)
never fires the deletion. -/
theorem delete_requires_confirmation (t : PatientsTable) (pid : Nat) :
    deleteHandler t pid true false = t ∧
    deleteHandler t pid false false = t ∧
    deleteHandler t pid false true = t ∧
    getPatient (deleteHandler t pid true true) pid = none := by
  refine ⟨rfl, rfl, rfl, ?_⟩
  simp only [deleteHandler, if_true, getPatient, deletePatient]
  exact find?_id_filter_ne t.rows pid

/-- The result of one statement routed through `run_query` with
`commit=True` (src/recomand.py lines 127-141): the store after the call
and the handler-visible return value.  `run_query` wraps the statement in
`try/except Exception`; on an exception it shows `st.error` and returns
`None`, and on a successful non-fetch statement it also returns `None`,
so the returned value is `none` on every path. -/
structure RunQueryResult where
  table : PatientsTable
  returned : Option Unit
  errorShown : Bool
deriving Repr, DecidableEq

/-- `run_query(INSERT INTO patients ..., commit=True)`: executes
`insertPatient`; a failure is caught inside `run_query`, which displays a
database error and leaves the store unchanged; the caller gets `none`
either way. -/
def runQueryInsert (t : PatientsTable) (fn ln ph g blood : String) :
    RunQueryResult :=
  match insertPatient t fn ln ph g blood with
  | .ok t2 => ⟨t2, none, false⟩
  | .error _ => ⟨t, none, true⟩

/-- What one run of the Create Patient handler produced
(src/recomand.py lines 188-197). -/
structure CreateResult where
  table : PatientsTable
  message : String
  storeCalled : Bool
deriving Repr, DecidableEq

/-- The Create Patient handler (src/recomand.py lines 188-197): under
`if fn and ln and ph:` (all three non-empty) it calls `run_query` on the
INSERT and unconditionally shows `st.success("Patient created!")`;
otherwise it shows `st.warning("Required fields missing")` without
touching the store. -/
def createPatientHandler (t : PatientsTable) (fn ln ph g blood : String) :
    CreateResult :=
  if fn != "" && ln != "" && ph != "" then
    ⟨(runQueryInsert t fn ln ph g blood).table, "Patient created!", true⟩
  else
    ⟨t, "Required fields missing", false⟩

/-- C2: In a store holding exactly one patient row with phone `ph`,
inserting a second patient with the same phone is rejected with the
uniqueness-conflict error (the spec's ConflictError) and afterwards
exactly one row with that phone exists. -/
theorem duplicate_phone_conflict (t : PatientsTable) (fn ln ph g blood : String)
    (h : countPhone t ph = 1) :
    insertPatient t fn ln ph g blood = .error .conflict ∧
    countPhone (createPatientHandler t fn ln ph g blood).table ph = 1 := by
  have hconf : phoneConflict t ph = true := by
    rcases hr : t.rows.filter (fun r => r.phone == ph) with _ | ⟨r, l⟩
    · exfalso
      simp only [countPhone, hr, List.length_nil] at h
      exact Nat.zero_ne_one h
    · have hmem : r ∈ t.rows.filter (fun r => r.phone == ph) := by
        rw [hr]; exact List.mem_cons_self r l
      have := List.mem_filter.mp hmem
      exact List.any_eq_true.mpr ⟨r, this.1, this.2⟩
  have hins : insertPatient t fn ln ph g blood = .error .conflict := by
    simp [insertPatient, hconf]
  refine ⟨hins, ?_⟩
  by_cases hfields : (fn != "" && ln != "" && ph != "") = true
  · simp only [createPatientHandler, hfields, if_true, runQueryInsert, hins]
    exact h
  · simp only [createPatientHandler, hfields, if_false]
    exact h

/-- Concrete instantiation of `duplicate_phone_conflict`: one row with
phone `"0301"`, then a second create with the same phone. -/
theorem duplicate_phone_conflict_witness :
    countPhone ⟨[⟨1, "Ali", "Khan", "0301", "Male", none, "A+"⟩], 2⟩ "0301" = 1 ∧
    insertPatient ⟨[⟨1, "Ali", "Khan", "0301", "Male", none, "A+"⟩], 2⟩
      "Sara" "Shah" "0301" "Female" "B+" = .error .conflict ∧
    countPhone (createPatientHandler
      ⟨[⟨1, "Ali", "Khan", "0301", "Male", none, "A+"⟩], 2⟩
      "Sara" "Shah" "0301" "Female" "B+").table "0301" = 1 := by
  have h : countPhone ⟨[⟨1, "Ali", "Khan", "0301", "Male", none, "A+"⟩], 2⟩ "0301" = 1 := by
    decide
  have main := duplicate_phone_conflict
    ⟨[⟨1, "Ali", "Khan", "0301", "Male", none, "A+"⟩], 2⟩
    "Sara" "Shah" "0301" "Female" "B+" h
  exact ⟨h, main.1, main.2⟩

/-- The characters Python's `str.isspace()` holds for — exactly the set
`str.strip()` with no argument removes: `\t` `\n` `\x0b` `\x0c` `\r`
(09-0D), the file/group/record/unit separators (1C-1F), space (20), NEL
(85), NBSP (A0), Ogham space mark (1680), the typographic spaces
2000-200A, the line and paragraph separators 2028/2029, narrow NBSP
(202F), medium mathematical space (205F) and ideographic space (3000). -/
def pyIsSpace (c : Char) : Bool :=
  (decide (0x2000 ≤ c.toNat) && decide (c.toNat ≤ 0x200A)) ||
  [0x09, 0x0A, 0x0B, 0x0C, 0x0D, 0x1C, 0x1D, 0x1E, 0x1F, 0x20,
   0x85, 0xA0, 0x1680, 0x2028, 0x2029, 0x202F, 0x205F, 0x3000].contains c.toNat

/-- Python's `str.strip()` on the character list of a string: drop the
`isspace` characters from both ends. -/
def pyStripList (s : List Char) : List Char :=
  ((s.dropWhile pyIsSpace).reverse.dropWhile pyIsSpace).reverse

/-- `username.strip()` as used by the login handler. -/
def pyStrip (s : String) : String :=
  String.mk (pyStripList s.data)

/-- The credential check of the Login button handler
(src/recomand.py line 111):
`username.strip() == "admin" and password == "admin123"`. -/
def loginCheck (username password : String) : Bool :=
  pyStrip username == "admin" && password == "admin123"

/-- The per-session state: `st.session_state.logged_in`. -/
structure Session where
  logged_in : Bool
deriving Repr, DecidableEq

/-- `st.session_state.logged_in = False` at first access
(src/recomand.py lines 68-69). -/
def initSession : Session :=
  ⟨false⟩

/-- What one run of the Login button handler produced: the session state
and the status message displayed. -/
structure LoginResult where
  session : Session
  message : String
deriving Repr, DecidableEq

/-- The Login button handler (src/recomand.py lines 110-117): on a
passing credential check the session becomes logged-in and
`st.success("Login successful!")` is shown; otherwise the state is
unchanged and `st.error("Invalid credentials")` is shown (together with
the `st.info` hint naming the demo pair). -/
def loginHandler (s : Session) (username password : String) : LoginResult :=
  if loginCheck username password then ⟨⟨true⟩, "Login successful!"⟩
  else ⟨s, "Invalid credentials"⟩

/-- The Logout button handler (src/recomand.py lines 92-94). -/
def logoutHandler (_ : Session) : Session :=
  ⟨false⟩

/-- C3 counterexample: the username `" admin "` with the demo password
logs the session in even though the submitted pair is not exactly
`("admin", "admin123")` — the handler strips the username first. -/
theorem login_strips_username :
    (loginHandler initSession " admin " "admin123").session.logged_in = true ∧
    " admin " ≠ "admin" := by
  constructor
  · decide
  · decide

/-- C3 (amended): starting logged-out, a submitted pair logs the session
in exactly when the whitespace-stripped username is `"admin"` and the
password is exactly `"admin123"`; equivalently, whenever the session is
left logged-out the "Invalid credentials" error is shown, and vice
versa; the flag is false initially and after an explicit logout. -/
theorem login_iff_stripped_credentials (u p : String) (s : Session) :
    ((loginHandler initSession u p).session.logged_in = true ↔
      (pyStrip u = "admin" ∧ p = "admin123")) ∧
    ((loginHandler initSession u p).session.logged_in = false ↔
      (loginHandler initSession u p).message = "Invalid credentials") ∧
    initSession.logged_in = false ∧
    (logoutHandler s).logged_in = false := by
  refine ⟨?_, ?_, rfl, rfl⟩ <;>
  · by_cases hu : pyStrip u = "admin"
    · by_cases hp : p = "admin123"
      · simp [loginHandler, loginCheck, initSession, hu, hp]
      · simp [loginHandler, loginCheck, initSession, hu, hp]
    · simp [loginHandler, loginCheck, initSession, hu]

/-- C4: A create submission with a blank (empty-string) required field —
first name, last name or phone — is rejected by the guard
`if fn and ln and ph:` before any store call: the warning is shown, the
store is untouched and the patient count is unchanged. -/
theorem blank_required_field_rejected (t : PatientsTable)
    (fn ln ph g blood : String) (h : fn = "" ∨ ln = "" ∨ ph = "") :
    (createPatientHandler t fn ln ph g blood).storeCalled = false ∧
    (createPatientHandler t fn ln ph g blood).table = t ∧
    (createPatientHandler t fn ln ph g blood).message = "Required fields missing" ∧
    countPatients (createPatientHandler t fn ln ph g blood).table = countPatients t := by
  have hguard : (fn != "" && ln != "" && ph != "") = false := by
    rcases h with h | h | h <;> simp [h]
  simp [createPatientHandler, hguard]

/-- Concrete instantiation of `blank_required_field_rejected`: empty
first name on the empty store. -/
theorem blank_required_field_rejected_witness :
    ("" = "" ∨ "Khan" = "" ∨ "0301" = "") ∧
    (createPatientHandler ⟨[], 1⟩ "" "Khan" "0301" "Male" "A+").storeCalled = false ∧
    (createPatientHandler ⟨[], 1⟩ "" "Khan" "0301" "Male" "A+").table = ⟨[], 1⟩ ∧
    countPatients (createPatientHandler ⟨[], 1⟩ "" "Khan" "0301" "Male" "A+").table
      = countPatients ⟨[], 1⟩ := by
  have main := blank_required_field_rejected ⟨[], 1⟩ "" "Khan" "0301" "Male" "A+"
    (Or.inl rfl)
  exact ⟨Or.inl rfl, main.1, main.2.1, main.2.2.2⟩

/-- When no element of `l` satisfies the predicate, `find?` over
`l ++ [x]` inspects `x`. -/
theorem find?_append_singleton (l : List Patient) (p : Patient → Bool)
    (x : Patient) (h : ∀ r ∈ l, p r = false) :
    (l ++ [x]).find? p = [x].find? p := by
  induction l with
  | nil => rfl
  | cons r l ih =>
    have hr : p r = false := h r (List.mem_cons_self r l)
    simp only [List.cons_append, List.find?, hr]
    exact ih fun r2 hr2 => h r2 (List.mem_cons_of_mem r hr2)

/-- C5 counterexample: a submission with every required field populated
whose phone collides with an existing row adds nothing — the UNIQUE
constraint rejects the INSERT, `run_query` swallows the failure, and the
patient count stays 1 instead of increasing by 1. -/
theorem create_populated_fields_can_fail :
    (createPatientHandler ⟨[⟨1, "Ali", "Khan", "0301", "Male", none, "A+"⟩], 2⟩
      "Sara" "Shah" "0301" "Female" "B+").table
      = ⟨[⟨1, "Ali", "Khan", "0301", "Male", none, "A+"⟩], 2⟩ ∧
    countPatients (createPatientHandler
      ⟨[⟨1, "Ali", "Khan", "0301", "Male", none, "A+"⟩], 2⟩
      "Sara" "Shah" "0301" "Female" "B+").table = 1 ∧
    countPatients ⟨[⟨1, "Ali", "Khan", "0301", "Male", none, "A+"⟩], 2⟩ = 1 := by
  refine ⟨?_, ?_, ?_⟩ <;> decide

/-- C5 (amended): a create submission with all required fields populated
whose phone is not already present (and whose table satisfies the
AUTOINCREMENT invariant that no stored id equals `nextId`) persists a new
row that a subsequent get by the fresh id retrieves, with the submitted
first name, last name, phone, gender and blood type stored unchanged
(`dob` stays NULL), and the patient count increases by exactly 1. -/
theorem create_success (t : PatientsTable) (fn ln ph g blood : String)
    (hfn : fn ≠ "") (hln : ln ≠ "") (hph : ph ≠ "")
    (hconf : phoneConflict t ph = false)
    (hid : ∀ r ∈ t.rows, r.id ≠ t.nextId) :
    getPatient (createPatientHandler t fn ln ph g blood).table t.nextId
      = some ⟨t.nextId, fn, ln, ph, g, none, blood⟩ ∧
    countPatients (createPatientHandler t fn ln ph g blood).table
      = countPatients t + 1 ∧
    (createPatientHandler t fn ln ph g blood).message = "Patient created!" := by
  have hguard : (fn != "" && ln != "" && ph != "") = true := by
    simp [hfn, hln, hph]
  have hins : insertPatient t fn ln ph g blood =
      .ok { rows := t.rows ++ [⟨t.nextId, fn, ln, ph, g, none, blood⟩],
            nextId := t.nextId + 1 } := by
    simp [insertPatient, hconf]
  have htab : (createPatientHandler t fn ln ph g blood).table =
      { rows := t.rows ++ [⟨t.nextId, fn, ln, ph, g, none, blood⟩],
        nextId := t.nextId + 1 } := by
    simp [createPatientHandler, hguard, runQueryInsert, hins]
  refine ⟨?_, ?_, ?_⟩
  · rw [htab]
    simp only [getPatient]
    rw [find?_append_singleton t.rows _ _ ?hnone]
    · simp [List.find?]
    case hnone =>
      intro r hr
      have := hid r hr
      simpa using this
  · rw [htab]
    simp [countPatients]
  · simp [createPatientHandler, hguard]

/-- Concrete instantiation of `create_success`: a fresh phone on a
one-row store. -/
theorem create_success_witness :
    getPatient (createPatientHandler
      ⟨[⟨1, "Ali", "Khan", "0301", "Male", none, "A+"⟩], 2⟩
      "Sara" "Shah" "0302" "Female" "B+").table 2
      = some ⟨2, "Sara", "Shah", "0302", "Female", none, "B+"⟩ ∧
    countPatients (createPatientHandler
      ⟨[⟨1, "Ali", "Khan", "0301", "Male", none, "A+"⟩], 2⟩
      "Sara" "Shah" "0302" "Female" "B+").table
      = countPatients ⟨[⟨1, "Ali", "Khan", "0301", "Male", none, "A+"⟩], 2⟩ + 1 := by
  have main := create_success
    ⟨[⟨1, "Ali", "Khan", "0301", "Male", none, "A+"⟩], 2⟩
    "Sara" "Shah" "0302" "Female" "B+"
    (by decide) (by decide) (by decide) (by decide)
    (by intro r hr; fin_cases hr; decide)
  exact ⟨main.1, main.2.1⟩

/-- SQLite's default `LIKE` character comparison: case-insensitive for
the ASCII letters only (`Char.toLower` folds exactly `A`-`Z`). -/
def charEqCI (a b : Char) : Bool :=
  a.toLower == b.toLower

/-- SQLite `LIKE` pattern matching over character lists: `%` matches any
(possibly empty) sequence, `_` matches exactly one character, any other
pattern character matches one character up to ASCII case. -/
def likeMatch : List Char → List Char → Bool
  | [], cs => cs.isEmpty
  | p :: ps, cs =>
    if p = '%' then
      cs.tails.any (fun cs2 => likeMatch ps cs2)
    else
      match cs with
      | [] => false
      | c :: cs2 => if p = '_' then likeMatch ps cs2 else charEqCI p c && likeMatch ps cs2

/-- `s` is an ASCII-case-insensitive prefix of `t`. -/
def isPrefixCI : List Char → List Char → Bool
  | [], _ => true
  | _ :: _, [] => false
  | a :: as, b :: bs => charEqCI a b && isPrefixCI as bs

/-- `s` occurs in `t` as an ASCII-case-insensitive contiguous substring:
the containment predicate the spec describes for search. -/
def containsCI : List Char → List Char → Bool
  | s, [] => isPrefixCI s []
  | s, c :: ts => isPrefixCI s (c :: ts) || containsCI s ts

/-- The search text is free of the SQL `LIKE` wildcards `%` and `_`. -/
def noWildcard (s : List Char) : Bool :=
  s.all (fun c => !(c == '%' || c == '_'))

/-- The row predicate of the patients search query (src/recomand.py
lines 162-166): `first_name LIKE ? OR last_name LIKE ? OR phone LIKE ?`
with each parameter `%search%`. -/
def patientMatchesLike (search : String) (r : Patient) : Bool :=
  likeMatch ('%' :: (search.data ++ ['%'])) r.first_name.data ||
  likeMatch ('%' :: (search.data ++ ['%'])) r.last_name.data ||
  likeMatch ('%' :: (search.data ++ ['%'])) r.phone.data

/-- The List & Search tab (src/recomand.py lines 160-168): a non-empty
search text adds the three-column `LIKE` WHERE clause; an empty one
returns every row. -/
def searchPatients (t : PatientsTable) (search : String) : List Patient :=
  if search != "" then t.rows.filter (patientMatchesLike search) else t.rows

/-- The spec's search predicate: some of the three text columns contains
the search text as a case-insensitive substring. -/
def patientMatchesSpec (search : String) (r : Patient) : Bool :=
  containsCI search.data r.first_name.data ||
  containsCI search.data r.last_name.data ||
  containsCI search.data r.phone.data

/-- A lone `%` pattern matches every string. -/
theorem likeMatch_percent_nil (t : List Char) : likeMatch ['%'] t = true := by
  have hunfold : likeMatch ['%'] t = t.tails.any (fun cs2 => likeMatch [] cs2) := by
    simp [likeMatch]
  rw [hunfold]
  exact List.any_eq_true.mpr ⟨[], (List.mem_tails _ _).mpr List.nil_suffix, rfl⟩

/-- A wildcard-free pattern followed by `%` matches exactly the strings
it is a case-insensitive prefix of. -/
theorem likeMatch_append_percent (s : List Char) (h : noWildcard s = true) :
    ∀ t : List Char, likeMatch (s ++ ['%']) t = isPrefixCI s t := by
  induction s with
  | nil =>
    intro t
    simp only [List.nil_append, likeMatch_percent_nil, isPrefixCI]
  | cons a as ih =>
    simp only [noWildcard, List.all_cons, Bool.and_eq_true] at h
    obtain ⟨ha, has⟩ := h
    have has2 : noWildcard as = true := by
      simp only [noWildcard]
      exact has
    have ha1 : ¬(a = '%') := by
      intro hcontra
      subst hcontra
      simp at ha
    have ha2 : ¬(a = '_') := by
      intro hcontra
      subst hcontra
      simp at ha
    intro t
    cases t with
    | nil => simp [likeMatch, isPrefixCI, ha1]
    | cons c cs => simp [likeMatch, isPrefixCI, ha1, ha2, ih has2 cs]

/-- Case-insensitive containment is prefix-matching against some tail. -/
theorem containsCI_eq_any_tails (s : List Char) :
    ∀ t : List Char, containsCI s t = t.tails.any (fun u => isPrefixCI s u) := by
  intro t
  induction t with
  | nil => simp [containsCI, List.tails]
  | cons c ts ih => simp [containsCI, List.tails_cons, ih]

/-- For a wildcard-free search text `s`, the SQL pattern `%s%` matches a
string exactly when `s` is contained in it case-insensitively. -/
theorem likeMatch_contains (s : List Char) (h : noWildcard s = true)
    (t : List Char) :
    likeMatch ('%' :: (s ++ ['%'])) t = containsCI s t := by
  have hfun : (fun u => likeMatch (s ++ ['%']) u) = (fun u => isPrefixCI s u) :=
    funext fun u => likeMatch_append_percent s h u
  have hunfold : likeMatch ('%' :: (s ++ ['%'])) t
      = t.tails.any (fun u => likeMatch (s ++ ['%']) u) := by
    simp [likeMatch]
  rw [hunfold, hfun, containsCI_eq_any_tails s t]

/-- C6 counterexample: the search text `"_"` is a `LIKE` wildcard, so the
query returns a row none of whose columns contains `"_"` as a substring —
the returned set is not the claimed substring-match set. -/
theorem search_wildcard_mismatch :
    searchPatients ⟨[⟨1, "Ann", "Xu", "123", "", none, ""⟩], 2⟩ "_"
      = [⟨1, "Ann", "Xu", "123", "", none, ""⟩] ∧
    patientMatchesSpec "_" ⟨1, "Ann", "Xu", "123", "", none, ""⟩ = false := by
  constructor <;> decide

/-- C6 (amended): for every search text free of the SQL `LIKE` wildcards
`%` and `_`, the search returns exactly the rows in which first name,
last name or phone contains the text as an (ASCII) case-insensitive
substring, excluding all others; with no search text it returns all rows.
(A search text containing `%` or `_` is instead interpreted with `LIKE`
wildcard semantics.) -/
theorem search_substring (t : PatientsTable) (search : String)
    (h : noWildcard search.data = true) :
    searchPatients t search = t.rows.filter (patientMatchesSpec search) ∧
    searchPatients t "" = t.rows := by
  constructor
  · by_cases hs : search = ""
    · subst hs
      have hall : ∀ r ∈ t.rows, patientMatchesSpec "" r = true := by
        intro r hr
        have h1 : containsCI "".data r.first_name.data = true := by
          cases hd : r.first_name.data <;> simp [containsCI, isPrefixCI]
        simp [patientMatchesSpec, h1]
      rw [List.filter_eq_self.mpr hall]
      simp [searchPatients]
    · have hne : (search != "") = true := by simp [hs]
      simp only [searchPatients, hne, if_true]
      apply List.filter_congr
      intro r hr
      simp only [patientMatchesLike, patientMatchesSpec,
        likeMatch_contains search.data h]
  · simp [searchPatients]

/-- Concrete instantiation of `search_substring`: searching `"30"` over a
two-row store. -/
theorem search_substring_witness :
    noWildcard ("30" : String).data = true ∧
    searchPatients ⟨[⟨1, "Ali", "Khan", "0301", "Male", none, "A+"⟩,
        ⟨2, "Sara", "Shah", "0412", "Female", none, "B+"⟩], 3⟩ "30"
      = List.filter (patientMatchesSpec "30")
        [⟨1, "Ali", "Khan", "0301", "Male", none, "A+"⟩,
         ⟨2, "Sara", "Shah", "0412", "Female", none, "B+"⟩] := by
  have h : noWildcard ("30" : String).data = true := by decide
  have main := search_substring
    ⟨[⟨1, "Ali", "Khan", "0301", "Male", none, "A+"⟩,
      ⟨2, "Sara", "Shah", "0412", "Female", none, "B+"⟩], 3⟩ "30" h
  exact ⟨h, main.1⟩

/-- A row of the `doctors` table (src/recomand.py lines 41-47):
`id INTEGER PRIMARY KEY AUTOINCREMENT, name TEXT NOT NULL,
specialty TEXT NOT NULL, phone TEXT, department TEXT`. -/
structure Doctor where
  id : Nat
  name : String
  specialty : String
  phone : String
  department : String
deriving Repr, DecidableEq

/-- The `doctors` table. -/
structure DoctorsTable where
  rows : List Doctor
  nextId : Nat
deriving Repr, DecidableEq

/-- `SELECT * FROM doctors WHERE id = ?`, reduced to the row it returns. -/
def getDoctor (t : DoctorsTable) (did : Nat) : Option Doctor :=
  t.rows.find? (fun r => r.id == did)

/-- Modelled from the spec: the doctor update operation. The source's
Doctors manage tab (src/recomand.py lines 253-259) is only a placeholder
telling the reader to copy the Patients management code (the Update
Patient handler, lines 224-231) with the `doctors` table and fields; no
doctor UPDATE statement exists in src/. Following that pattern and the
spec's `update(id, fields)` contract, the update executes
`UPDATE doctors SET name=?, specialty=?, phone=?, department=? WHERE id=?`
with the edit form's values, which are prefilled with the row's current
values. -/
def updateDoctor (t : DoctorsTable) (did : Nat)
    (name specialty phone department : String) : DoctorsTable :=
  { t with rows := t.rows.map (fun r =>
      if r.id == did then ⟨r.id, name, specialty, phone, department⟩ else r) }

/-- Rewriting every row that carries the looked-up id moves `find?` to
the rewritten row. -/
theorem find?_map_update_id (d : Doctor) (newDept : String) :
    ∀ l : List Doctor,
      l.find? (fun r => r.id == d.id) = some d →
      (l.map (fun r => if r.id == d.id then
          ⟨r.id, d.name, d.specialty, d.phone, newDept⟩ else r)).find?
        (fun r => r.id == d.id)
        = some ⟨d.id, d.name, d.specialty, d.phone, newDept⟩ := by
  intro l
  induction l with
  | nil => intro h; simp at h
  | cons r l ih =>
    intro h
    by_cases hr : r.id = d.id
    · have hrd : r = d := by
        have := List.find?_cons_of_pos (p := fun r => r.id == d.id) l
          (a := r) (by simp [hr])
        rw [this] at h
        exact Option.some.inj h
      subst hrd
      simp [hr]
    · have hfr : ((if r.id == d.id then
          (⟨r.id, d.name, d.specialty, d.phone, newDept⟩ : Doctor) else r))
          = r := by
        simp [hr]
      have htail : l.find? (fun r => r.id == d.id) = some d := by
        have := List.find?_cons_of_neg (p := fun r => r.id == d.id) l
          (a := r) (by simp [hr])
        rw [this] at h
        exact h
      rw [List.map_cons, hfr,
        List.find?_cons_of_neg _ (by simp [hr])]
      exact ih htail

/-- C7: for a doctor row present in the store, submitting the edit form
with only the department changed (the other fields keeping their
prefilled current values) and fetching the doctor again yields the new
department and leaves every other field — id, name, specialty, phone —
unchanged. -/
theorem update_department_frame (t : DoctorsTable) (d : Doctor)
    (newDept : String) (h : getDoctor t d.id = some d) :
    getDoctor (updateDoctor t d.id d.name d.specialty d.phone newDept) d.id
      = some ⟨d.id, d.name, d.specialty, d.phone, newDept⟩ := by
  simp only [getDoctor, updateDoctor] at h ⊢
  exact find?_map_update_id d newDept t.rows h

/-- Concrete instantiation of `update_department_frame`. -/
theorem update_department_frame_witness :
    getDoctor ⟨[⟨1, "Dr. Ahmed", "Cardiology", "0300", "Medicine"⟩], 2⟩ 1
      = some ⟨1, "Dr. Ahmed", "Cardiology", "0300", "Medicine"⟩ ∧
    getDoctor (updateDoctor ⟨[⟨1, "Dr. Ahmed", "Cardiology", "0300", "Medicine"⟩], 2⟩
        1 "Dr. Ahmed" "Cardiology" "0300" "Surgery") 1
      = some ⟨1, "Dr. Ahmed", "Cardiology", "0300", "Surgery"⟩ := by
  have h : getDoctor ⟨[⟨1, "Dr. Ahmed", "Cardiology", "0300", "Medicine"⟩], 2⟩ 1
      = some ⟨1, "Dr. Ahmed", "Cardiology", "0300", "Medicine"⟩ := by decide
  exact ⟨h, update_department_frame
    ⟨[⟨1, "Dr. Ahmed", "Cardiology", "0300", "Medicine"⟩], 2⟩
    ⟨1, "Dr. Ahmed", "Cardiology", "0300", "Medicine"⟩ "Surgery" h⟩

/-- The branches of the main-area `if page == ... elif ... else` chain
(src/recomand.py lines 144-271). -/
inductive Branch where
  | dashboard
  | patientsCrud
  | doctorsStaffCrud
  | placeholder
deriving Repr, DecidableEq

/-- The sidebar radio options shown once logged in
(src/recomand.py lines 79-89). -/
def sidebarOptions : List String :=
  ["Dashboard",
   "Patients (full CRUD)",
   "Doctors (full CRUD)",
   "Staff (full CRUD)",
   "Appointments",
   "Lab & Investigations",
   "Pharmacy Inventory",
   "Departments",
   "Reports"]

/-- The main-area page dispatch (src/recomand.py lines 144, 156, 241,
262): note the Doctors & Staff comparison at line 241 tests the
emoji-prefixed labels `"👨‍⚕️ Doctors (full CRUD)"` and
`"👩‍⚕️ Staff (full CRUD)"` (man/woman health-worker, i.e. U+1F468 or
U+1F469, U+200D, U+2695, U+FE0F, then a space), not the sidebar's plain
labels. -/
def dispatch (page : String) : Branch :=
  if page == "Dashboard" then .dashboard
  else if page == "Patients (full CRUD)" then .patientsCrud
  else if page == "👨‍⚕️ Doctors (full CRUD)" || page == "👩‍⚕️ Staff (full CRUD)" then
    .doctorsStaffCrud
  else .placeholder

/-- C8: no sidebar selection ever reaches the Doctors & Staff CRUD
branch — its emoji-prefixed labels match no sidebar option — and the two
sidebar options "Doctors (full CRUD)" and "Staff (full CRUD)" fall
through to the generic placeholder branch, so no Doctors or Staff list
or mutation is reachable through the UI. -/
theorem doctors_staff_branch_unreachable :
    (sidebarOptions.all (fun p => dispatch p != Branch.doctorsStaffCrud)) = true ∧
    dispatch "Doctors (full CRUD)" = Branch.placeholder ∧
    dispatch "Staff (full CRUD)" = Branch.placeholder := by
  refine ⟨?_, ?_, ?_⟩ <;> decide

/-- The option lists of the patient edit form's two selectboxes
(src/recomand.py lines 219-220). -/
def genderOptions : List String :=
  ["Male", "Female", "Other"]

/-- The gender selectbox index of the patient edit form
(src/recomand.py line 219):
`index=0 if pd.isna(p['gender']) else ["Male","Female","Other"].index(p['gender'])`.
The argument is the stored cell (`none` = SQL NULL); a `none` result
models the `ValueError` that `.index` raises when the stored value is
not among the options (e.g. the empty string selectable on the Add
form). -/
def genderEditIndex (g : Option String) : Option Nat :=
  match g with
  | none => some 0
  | some s => genderOptions.indexOf? s

/-- The blood-group selectbox index of the patient edit form
(src/recomand.py line 220): literally `index=0`, ignoring the stored
cell. -/
def bloodEditIndex (_ : Option String) : Nat :=
  0

/-- C9 counterexample: for a row with stored gender `"Female"` the
gender dropdown of the edit form preselects index 1, not index 0 — the
gender selectbox does preselect the stored value. -/
theorem gender_dropdown_preselects :
    genderEditIndex (some "Female") = some 1 ∧
    genderEditIndex (some "Female") ≠ some 0 := by
  constructor <;> decide

/-- C9 (amended): the blood-type dropdown of the edit form defaults to
index 0 regardless of the row's stored value, but the gender dropdown
preselects the row's stored gender (index 0 only when the stored gender
is NULL; a stored value outside the option list raises instead). -/
theorem edit_dropdown_defaults (g : Option String) :
    bloodEditIndex g = 0 ∧
    genderEditIndex none = some 0 ∧
    genderEditIndex (some "Male") = some 0 ∧
    genderEditIndex (some "Female") = some 1 ∧
    genderEditIndex (some "Other") = some 2 :=
  ⟨rfl, rfl, by decide, by decide, by decide⟩

/-- C10: `run_query` returns `None` on every path — it catches any
execution exception, closes the connection and returns `None`, the same
value a successful non-fetch mutation returns — so the create handler
cannot distinguish a failed INSERT from a successful one: whenever the
required fields are populated it shows "Patient created!", and on a
phone conflict it does so with the store left unchanged. -/
theorem run_query_swallows_failure (t : PatientsTable)
    (fn ln ph g blood : String)
    (hfn : fn ≠ "") (hln : ln ≠ "") (hph : ph ≠ "") :
    (runQueryInsert t fn ln ph g blood).returned = none ∧
    (createPatientHandler t fn ln ph g blood).message = "Patient created!" ∧
    (phoneConflict t ph = true →
      (createPatientHandler t fn ln ph g blood).table = t) := by
  have hguard : (fn != "" && ln != "" && ph != "") = true := by
    simp [hfn, hln, hph]
  refine ⟨?_, ?_, ?_⟩
  · cases hins : insertPatient t fn ln ph g blood <;>
      simp [runQueryInsert, hins]
  · simp [createPatientHandler, hguard]
  · intro hconf
    have hins : insertPatient t fn ln ph g blood = .error .conflict := by
      simp [insertPatient, hconf]
    simp [createPatientHandler, hguard, runQueryInsert, hins]

/-- Concrete instantiation of `run_query_swallows_failure`: a create
whose phone collides with the stored row still reports success while the
INSERT failed and the store is unchanged. -/
theorem run_query_swallows_failure_witness :
    (runQueryInsert ⟨[⟨1, "Ali", "Khan", "0301", "Male", none, "A+"⟩], 2⟩
      "Sara" "Shah" "0301" "Female" "B+").returned = none ∧
    (createPatientHandler ⟨[⟨1, "Ali", "Khan", "0301", "Male", none, "A+"⟩], 2⟩
      "Sara" "Shah" "0301" "Female" "B+").message = "Patient created!" ∧
    (createPatientHandler ⟨[⟨1, "Ali", "Khan", "0301", "Male", none, "A+"⟩], 2⟩
      "Sara" "Shah" "0301" "Female" "B+").table
      = ⟨[⟨1, "Ali", "Khan", "0301", "Male", none, "A+"⟩], 2⟩ := by
  have main := run_query_swallows_failure
    ⟨[⟨1, "Ali", "Khan", "0301", "Male", none, "A+"⟩], 2⟩
    "Sara" "Shah" "0301" "Female" "B+"
    (by decide) (by decide) (by decide)
  exact ⟨main.1, main.2.1, main.2.2 (by decide)⟩

end Recomand
